import Mathlib

/-!
Shallow embedding of the vscode-fs repository (a dual-backend virtual
file-system abstraction): the error taxonomy (src/error.ts), the metadata
model (src/types.ts), the local backend adapter (src/node.ts) and the host
backend adapter (src/vscode.ts).  Raw OS primitives (lstat, stat, access,
rename, copyFile, mkdir, readdir) are modelled either as an abstract oracle
or against a concrete directory-tree state, following the source line by
line.
-/

namespace VscodeFs

/-! ## Metadata model (src/types.ts)

`FileType` is a bitmask: Unknown = 0, File = 1, Directory = 2,
SymbolicLink = 64.  File and Directory are combinable with SymbolicLink via
bitwise OR.  We model the bitmask as a `Nat`. -/

def FileType.Unknown : Nat := 0

def FileType.File : Nat := 1

def FileType.Directory : Nat := 2

def FileType.SymbolicLink : Nat := 64

/-- The closed error taxonomy of `FileSystemProviderErrorCode` in
src/types.ts. -/
inductive FileSystemProviderErrorCode
  | FileExists
  | FileNotFound
  | FileNotADirectory
  | FileIsADirectory
  | FileExceedsStorageQuota
  | FileTooLarge
  | FileWriteLocked
  | NoPermissions
  | Unavailable
  | Unknown
deriving DecidableEq, Repr

/-- The string value each enum member carries in src/types.ts
(`FileExists = 'EntryExists'`, ...). -/
def FileSystemProviderErrorCode.value : FileSystemProviderErrorCode → String
  | .FileExists => "EntryExists"
  | .FileNotFound => "EntryNotFound"
  | .FileNotADirectory => "EntryNotADirectory"
  | .FileIsADirectory => "EntryIsADirectory"
  | .FileExceedsStorageQuota => "EntryExceedsStorageQuota"
  | .FileTooLarge => "EntryTooLarge"
  | .FileWriteLocked => "EntryWriteLocked"
  | .NoPermissions => "NoPermissions"
  | .Unavailable => "Unavailable"
  | .Unknown => "Unknown"

/-- A backend-native error: a JS `Error` that may carry an errno-style
`code` property (`NodeJS.ErrnoException`).  `code = none` models an object
without the `code` property. -/
structure ErrnoException where
  name : String
  message : String
  code : Option String
deriving DecidableEq, Repr

/-- JS `Error.prototype.toString()`: `name` when the message is empty,
`message` when the name is empty, otherwise `name ++ ": " ++ message`. -/
def ErrnoException.toString (e : ErrnoException) : String :=
  if e.message = "" then e.name
  else if e.name = "" then e.message
  else e.name ++ ": " ++ e.message

/-- The normalized error of src/error.ts (`FileSystemErrorImpl`): a message
plus exactly one taxonomy code.  A value of this type models an object that
`instanceof FileSystemErrorImpl` recognizes. -/
structure FileSystemError where
  message : String
  code : FileSystemProviderErrorCode
deriving DecidableEq, Repr

/-- `createFileSystemError(error, code)` = `FileSystemErrorImpl.create`:
stores `error.toString()` as the message together with the code.  Here the
argument is already the string (`Error | string` callers pass
`toString` themselves in the model). -/
def createFileSystemError (message : String) (code : FileSystemProviderErrorCode) :
    FileSystemError :=
  { message := message, code := code }

/-- A single quote character, used inside the UNC guidance message. -/
def singleQuote : String := String.singleton (Char.ofNat 39)

/-- The guidance appended to the message of a disallowed-UNC-host error in
`toFileSystemError` (src/error.ts). -/
def uncGuidance : String :=
  ". Please update the " ++ singleQuote ++ "security.allowedUNCHosts" ++ singleQuote
    ++ " setting if you want to allow this host."

/-- `toFileSystemError(error)` of src/error.ts: the switch on `error.code`
translating errno-style signals into the taxonomy.  Unmapped codes fall to
`Unknown`; `ERR_UNC_HOST_NOT_ALLOWED` gets an augmented string message
(so `createFileSystemError` receives the string itself, not
`error.toString()`). -/
def toFileSystemError (error : ErrnoException) : FileSystemError :=
  match error.code with
  | some "ENOENT" =>
      createFileSystemError error.toString FileSystemProviderErrorCode.FileNotFound
  | some "EISDIR" =>
      createFileSystemError error.toString FileSystemProviderErrorCode.FileIsADirectory
  | some "ENOTDIR" =>
      createFileSystemError error.toString FileSystemProviderErrorCode.FileNotADirectory
  | some "EEXIST" =>
      createFileSystemError error.toString FileSystemProviderErrorCode.FileExists
  | some "EPERM" =>
      createFileSystemError error.toString FileSystemProviderErrorCode.NoPermissions
  | some "EACCES" =>
      createFileSystemError error.toString FileSystemProviderErrorCode.NoPermissions
  | some "ERR_UNC_HOST_NOT_ALLOWED" =>
      createFileSystemError (error.message ++ uncGuidance)
        FileSystemProviderErrorCode.Unknown
  | _ =>
      createFileSystemError error.toString FileSystemProviderErrorCode.Unknown

/-- A thrown JS value as seen by the adapter layer: either one of this
system's own normalized errors or a foreign (backend-native) exception. -/
inductive JsError
  | fsError (e : FileSystemError)
  | errno (e : ErrnoException)
deriving DecidableEq, Repr

/-- `FileSystemError.isFileSystemError` (src/types.ts): an
`instanceof FileSystemErrorImpl` check distinguishing this system's own
errors from foreign exceptions. -/
def isFileSystemError : JsError → Bool
  | .fsError _ => true
  | .errno _ => false

/-- `wrap(fn)` of src/node.ts applied to the outcome of the body: a
successful result passes through; an error that is already a
`FileSystemError` is re-thrown unchanged; any other error is normalized by
`toFileSystemError`. -/
def wrap {α : Type} : Except JsError α → Except JsError α
  | .ok a => .ok a
  | .error e =>
      match e with
      | .fsError f => .error (.fsError f)
      | .errno ex => .error (.fsError (toFileSystemError ex))

/-! ## Local backend: stat and the existence probes (src/node.ts)

The raw OS primitives `fs.promises.lstat` / `fs.promises.stat` are external
collaborators; we model them as an abstract oracle returning a `Stats`
record or an errno exception. -/

/-- The kind reported by the `isFile()` / `isDirectory()` /
`isSymbolicLink()` predicates of a node `Stats` object (exactly one is
true, or none for e.g. a device node). -/
inductive StatsKind
  | file
  | directory
  | symlink
  | unknownKind
deriving DecidableEq, Repr

/-- A node `fs.Stats` record, reduced to the fields src/node.ts reads:
the kind predicates, `birthtime`, `mtime` (milliseconds) and `size`. -/
structure Stats where
  kind : StatsKind
  birthtime : Int
  mtime : Int
  size : Nat
deriving DecidableEq, Repr

/-- `toFileType(stats)` of src/node.ts: `isFile()` wins, then
`isDirectory()`, then `isSymbolicLink()`, else Unknown. -/
def toFileType (stats : Stats) : Nat :=
  if stats.kind = StatsKind.file then FileType.File
  else if stats.kind = StatsKind.directory then FileType.Directory
  else if stats.kind = StatsKind.symlink then FileType.SymbolicLink
  else FileType.Unknown

/-- The OS stat oracle: `lstat` (no link following) and `stat` (follows
symlinks) as arbitrary functions from path to outcome. -/
structure NodeFsOracle where
  lstat : String → Except ErrnoException Stats
  stat : String → Except ErrnoException Stats

/-- `resolveFileType(path)` of src/node.ts: lstat the path; a non-symlink
returns its exact type and lstat record; a symlink stats the target — on
success the target type OR SymbolicLink with the target record, on failure
(broken link) Unknown OR SymbolicLink with the lstat record. -/
def resolveFileType (fs : NodeFsOracle) (path : String) :
    Except JsError (Nat × Stats) :=
  match fs.lstat path with
  | .error e => .error (.errno e)
  | .ok lstats =>
      if lstats.kind ≠ StatsKind.symlink then .ok (toFileType lstats, lstats)
      else
        match fs.stat path with
        | .ok targetStats =>
            .ok (Nat.lor (toFileType targetStats) FileType.SymbolicLink, targetStats)
        | .error _ =>
            .ok (Nat.lor FileType.Unknown FileType.SymbolicLink, lstats)

/-- The uniform metadata record of src/types.ts. -/
structure FileStat where
  type : Nat
  ctime : Int
  mtime : Int
  size : Nat
deriving DecidableEq, Repr

/-- The record literal built from a resolved type and stats record in
`stat` / `isFile` / `isDirectory` / `isSymbolicLink` / `exists`
(src/node.ts): `ctime` from `birthtime`, `mtime`, `size`. -/
def mkFileStat (t : Nat) (stats : Stats) : FileStat :=
  { type := t, ctime := stats.birthtime, mtime := stats.mtime, size := stats.size }

/-- The `stat` method of the local backend: `resolveFileType` then the
`FileStat` literal, all inside `wrap`. -/
def statOp (fs : NodeFsOracle) (path : String) : Except JsError FileStat :=
  wrap ((resolveFileType fs path).map fun ts => mkFileStat ts.1 ts.2)

/-- The `exists` method: the same body as `stat` but with a catch-all
returning `false` (modelled as `none`). -/
def existsOp (fs : NodeFsOracle) (path : String) : Option FileStat :=
  match resolveFileType fs path with
  | .ok ts => some (mkFileStat ts.1 ts.2)
  | .error _ => none

/-- The try/catch surrounding each probing method: any thrown error
collapses to the `false` result (`none`). -/
def catchToFalse (r : Except JsError (Option FileStat)) :
    Except JsError (Option FileStat) :=
  match r with
  | .ok v => .ok v
  | .error _ => .ok none

/-- The `isFile` method: resolve, return `false` unless the type is exactly
`FileType.File`, and swallow every error. -/
def isFile (fs : NodeFsOracle) (path : String) : Except JsError (Option FileStat) :=
  catchToFalse ((resolveFileType fs path).map fun ts =>
    if ts.1 ≠ FileType.File then none else some (mkFileStat ts.1 ts.2))

/-- The `isDirectory` method: as `isFile` with `FileType.Directory`. -/
def isDirectory (fs : NodeFsOracle) (path : String) :
    Except JsError (Option FileStat) :=
  catchToFalse ((resolveFileType fs path).map fun ts =>
    if ts.1 ≠ FileType.Directory then none else some (mkFileStat ts.1 ts.2))

/-- The `isSymbolicLink` method: as `isFile` with
`FileType.SymbolicLink`. -/
def isSymbolicLink (fs : NodeFsOracle) (path : String) :
    Except JsError (Option FileStat) :=
  catchToFalse ((resolveFileType fs path).map fun ts =>
    if ts.1 ≠ FileType.SymbolicLink then none else some (mkFileStat ts.1 ts.2))

/-- A concrete stat oracle: `link` is a symlink to a regular file, `broken`
is a symlink whose target is missing, `plain` is a regular file, all other
paths are absent. -/
def linkOracle : NodeFsOracle where
  lstat := fun p =>
    if p = "link" then .ok ⟨StatsKind.symlink, 10, 11, 4⟩
    else if p = "broken" then .ok ⟨StatsKind.symlink, 20, 21, 6⟩
    else if p = "plain" then .ok ⟨StatsKind.file, 30, 31, 8⟩
    else .error ⟨"Error", "no such file or directory", some "ENOENT"⟩
  stat := fun p =>
    if p = "link" then .ok ⟨StatsKind.file, 40, 41, 9⟩
    else if p = "plain" then .ok ⟨StatsKind.file, 30, 31, 8⟩
    else .error ⟨"Error", "no such file or directory", some "ENOENT"⟩

/-! ## Watcher multiplexer (src/node.ts, src/vscode.ts)

Listener callbacks are identified by opaque tokens (`Nat`); a JS `Set` of
listeners is an insertion-ordered duplicate-free list. -/

/-- The options record of `createWatcher` (src/types.ts); a `none` field
models an absent property. -/
structure WatcherOptions where
  ignoreCreateEvents : Option Bool := none
  ignoreChangeEvents : Option Bool := none
  ignoreDeleteEvents : Option Bool := none
deriving DecidableEq, Repr

/-- The raw chokidar events the local backend subscribes to. -/
inductive RawEvent
  | add
  | change
  | unlink
deriving DecidableEq, Repr

/-- Which raw chokidar handlers `createWatcher` (src/node.ts) attaches
after the ready event: `add` and `change` are both attached under
`options?.ignoreChangeEvents !== true`, `unlink` under
`options?.ignoreDeleteEvents !== true`. -/
structure NodeWatcherWiring where
  addWired : Bool
  changeWired : Bool
  unlinkWired : Bool
deriving DecidableEq, Repr

/-- The wiring decided by `createWatcher` of src/node.ts from its options
argument. -/
def nodeWatcherWiring (options : Option WatcherOptions) : NodeWatcherWiring where
  addWired := decide ((options.bind fun o => o.ignoreChangeEvents) ≠ some true)
  changeWired := decide ((options.bind fun o => o.ignoreChangeEvents) ≠ some true)
  unlinkWired := decide ((options.bind fun o => o.ignoreDeleteEvents) ≠ some true)

/-- `NodeFileSystemWatcherImpl` state: the three listener sets plus the
wiring fixed at creation. -/
structure NodeWatcherState where
  createListeners : List Nat
  changeListeners : List Nat
  deleteListeners : List Nat
  wiring : NodeWatcherWiring
deriving DecidableEq, Repr

/-- JS `Set.prototype.add`: appends unless already present. -/
def setAdd (l : List Nat) (x : Nat) : List Nat :=
  if x ∈ l then l else l ++ [x]

/-- JS `Set.prototype.delete`: removes the element, keeping order. -/
def setDelete (l : List Nat) (x : Nat) : List Nat :=
  l.filter fun y => y ≠ x

/-- `onDidCreate(listener)`: adds to the create set; the returned
disposable removes exactly that listener (`onDidCreateListeners.delete`),
modelled by `disposeCreate`. -/
def onDidCreate (w : NodeWatcherState) (x : Nat) : NodeWatcherState :=
  { w with createListeners := setAdd w.createListeners x }

/-- `onDidChange(listener)`: adds to the change set. -/
def onDidChange (w : NodeWatcherState) (x : Nat) : NodeWatcherState :=
  { w with changeListeners := setAdd w.changeListeners x }

/-- `onDidDelete(listener)`: adds to the delete set. -/
def onDidDelete (w : NodeWatcherState) (x : Nat) : NodeWatcherState :=
  { w with deleteListeners := setAdd w.deleteListeners x }

/-- Disposal of the handle returned by `onDidCreate`. -/
def disposeCreate (w : NodeWatcherState) (x : Nat) : NodeWatcherState :=
  { w with createListeners := setDelete w.createListeners x }

/-- Disposal of the handle returned by `onDidChange`. -/
def disposeChange (w : NodeWatcherState) (x : Nat) : NodeWatcherState :=
  { w with changeListeners := setDelete w.changeListeners x }

/-- Disposal of the handle returned by `onDidDelete`. -/
def disposeDelete (w : NodeWatcherState) (x : Nat) : NodeWatcherState :=
  { w with deleteListeners := setDelete w.deleteListeners x }

/-- The listeners a raw event reaches: the handler attached by
`createWatcher` iterates the corresponding listener set, and an unwired
event reaches nobody. -/
def notifiedListeners (w : NodeWatcherState) : RawEvent → List Nat
  | .add => if w.wiring.addWired then w.createListeners else []
  | .change => if w.wiring.changeWired then w.changeListeners else []
  | .unlink => if w.wiring.unlinkWired then w.deleteListeners else []

/-- The watcher's read-only `ignoreCreateEvents` property
(`options?.ignoreCreateEvents ?? false`). -/
def ignoreCreateEventsProperty (options : Option WatcherOptions) : Bool :=
  (options.bind fun o => o.ignoreCreateEvents).getD false

/-- The three boolean arguments the host backend's `createWatcher`
(src/vscode.ts) passes to the native
`vscode.workspace.createFileSystemWatcher`, in positional order
(ignoreCreateEvents, ignoreChangeEvents, ignoreDeleteEvents). -/
structure NativeWatcherArgs where
  ignoreCreateEvents : Option Bool
  ignoreChangeEvents : Option Bool
  ignoreDeleteEvents : Option Bool
deriving DecidableEq, Repr

/-- src/vscode.ts passes `options?.ignoreChangeEvents` for both the
create-ignore and change-ignore positions, and
`options?.ignoreDeleteEvents` for the delete-ignore position. -/
def vscodeCreateWatcherArgs (options : Option WatcherOptions) : NativeWatcherArgs where
  ignoreCreateEvents := options.bind fun o => o.ignoreChangeEvents
  ignoreChangeEvents := options.bind fun o => o.ignoreChangeEvents
  ignoreDeleteEvents := options.bind fun o => o.ignoreDeleteEvents

/-! ## Host backend delete (src/vscode.ts) -/

/-- The options of the public `delete` operation. -/
structure DeleteOptions where
  recursive : Option Bool := none
  useTrash : Option Bool := none
deriving DecidableEq, Repr

/-- The host backend's `delete` (src/vscode.ts line
`delete: async uri => await vscode.workspace.fs.delete(uri)`): the native
provider's delete is an abstract semantics over uri and options, and the
adapter invokes it with the uri alone, so the native provider sees no
options object regardless of what the caller passed. -/
def vscodeDelete {σ : Type} (native : String → Option DeleteOptions → σ)
    (uri : String) (_options : Option DeleteOptions) : σ :=
  native uri none

/-! ## A directory-tree state for the mutating operations (src/node.ts)

`rename` and `copy` mutate the OS state; we model the OS file tree
concretely (no symlinks, which neither algorithm inspects: both go through
link-following `stat`) and implement the node primitives `access`,
`rename`, `copyFile`, `mkdir {recursive}`, `readdir` against it.  A
`device` leaf stands for any entry that is neither a regular file nor a
directory. -/

/-- A file tree: regular files carry their bytes, directories an ordered
children list, `device` any other entry kind. -/
inductive FsTree
  | file (content : List Nat)
  | directory (children : List (String × FsTree))
  | device
deriving Repr

/-- Look a name up in a children list (first match). -/
def findChild : List (String × FsTree) → String → Option FsTree
  | [], _ => none
  | (m, c) :: rest, n => if m = n then some c else findChild rest n

/-- Replace the entry under a name, or append it. -/
def setChild : List (String × FsTree) → String → FsTree → List (String × FsTree)
  | [], n, t => [(n, t)]
  | (m, c) :: rest, n, t =>
      if m = n then (m, t) :: rest else (m, c) :: setChild rest n t

/-- Drop the entry under a name. -/
def removeChild (cs : List (String × FsTree)) (n : String) : List (String × FsTree) :=
  cs.filter fun mc => mc.1 ≠ n

/-- Resolve a path to the entry it denotes, if any. -/
def FsTree.find : FsTree → List String → Option FsTree
  | t, [] => some t
  | .directory cs, n :: rest =>
      match findChild cs n with
      | some c => FsTree.find c rest
      | none => none
  | _, _ :: _ => none

/-- Write an entry at a path: every proper ancestor must already exist as a
directory (the final component may be new); `none` models the ENOENT /
ENOTDIR failure of the underlying syscall. -/
def FsTree.set : FsTree → List String → FsTree → Option FsTree
  | _, [], newEntry => some newEntry
  | .directory cs, [n], newEntry => some (.directory (setChild cs n newEntry))
  | .directory cs, n :: rest, newEntry =>
      match findChild cs n with
      | some c => (FsTree.set c rest newEntry).map fun c2 => .directory (setChild cs n c2)
      | none => none
  | _, _ :: _, _ => none

/-- Remove the entry at a path (no-op when absent). -/
def FsTree.remove : FsTree → List String → FsTree
  | t, [] => t
  | .directory cs, [n] => .directory (removeChild cs n)
  | .directory cs, n :: rest =>
      match findChild cs n with
      | some c => .directory (setChild cs n (FsTree.remove c rest))
      | none => .directory cs
  | t, _ :: _ => t

/-- Errno values thrown by the modelled primitives. -/
def enoentError : ErrnoException :=
  ⟨"Error", "ENOENT: no such file or directory", some "ENOENT"⟩

def eexistError : ErrnoException :=
  ⟨"Error", "EEXIST: file already exists", some "EEXIST"⟩

def enotdirError : ErrnoException :=
  ⟨"Error", "ENOTDIR: not a directory", some "ENOTDIR"⟩

def eisdirError : ErrnoException :=
  ⟨"Error", "EISDIR: illegal operation on a directory", some "EISDIR"⟩

def enotemptyError : ErrnoException :=
  ⟨"Error", "ENOTEMPTY: directory not empty", some "ENOTEMPTY"⟩

def einvalError : ErrnoException :=
  ⟨"Error", "EINVAL: invalid argument", some "EINVAL"⟩

/-- `fs.promises.stat` on the tree (symlink-free, so lstat = stat):
the entry at the path or ENOENT. -/
def statPrim (root : FsTree) (p : List String) : Except ErrnoException FsTree :=
  match root.find p with
  | some t => .ok t
  | none => .error enoentError

/-- `fs.promises.access(path, F_OK)`: succeeds exactly when the entry
exists. -/
def accessPrim (root : FsTree) (p : List String) : Except ErrnoException Unit :=
  match root.find p with
  | some _ => .ok ()
  | none => .error enoentError

/-- `fs.promises.mkdir(path, {recursive: true})`: creates every missing
intermediate directory, succeeds on an existing directory, EEXIST on an
existing non-directory at the path, ENOTDIR on a non-directory
intermediate. -/
def FsTree.mkdirp : FsTree → List String → Except ErrnoException FsTree
  | .directory cs, [] => .ok (.directory cs)
  | _, [] => .error eexistError
  | .directory cs, n :: rest =>
      match findChild cs n with
      | some c => (FsTree.mkdirp c rest).map fun c2 => .directory (setChild cs n c2)
      | none =>
          (FsTree.mkdirp (.directory []) rest).map fun c2 => .directory (setChild cs n c2)
  | _, _ :: _ => .error enotdirError

/-- `fs.promises.readdir(path, {withFileTypes: true})` reduced to the
child names in directory order. -/
def readdirNames (root : FsTree) (p : List String) : Except ErrnoException (List String) :=
  match root.find p with
  | some (.directory cs) => .ok (cs.map fun mc => mc.1)
  | some _ => .error enotdirError
  | none => .error enoentError

/-- `fs.promises.copyFile(src, dst, mode)` with `excl` true when the mode
is `COPYFILE_EXCL`: the source must be a regular file; with `excl` an
existing destination is EEXIST; otherwise an existing destination file is
replaced (a destination directory is EISDIR); a missing destination parent
is ENOENT. -/
def copyFilePrim (root : FsTree) (src dst : List String) (excl : Bool) :
    Except ErrnoException FsTree :=
  match root.find src with
  | none => .error enoentError
  | some (.directory _) => .error eisdirError
  | some .device => .error einvalError
  | some (.file c) =>
      if excl then
        match root.find dst with
        | some _ => .error eexistError
        | none =>
            match root.set dst (.file c) with
            | some r2 => .ok r2
            | none => .error enoentError
      else
        match root.find dst with
        | some (.directory _) => .error eisdirError
        | _ =>
            match root.set dst (.file c) with
            | some r2 => .ok r2
            | none => .error enoentError

/-- Move an entry from `src` to `dst` (the unchecked core of
`fs.promises.rename`). -/
def movePrim (root : FsTree) (src dst : List String) (entry : FsTree) :
    Except ErrnoException FsTree :=
  match (root.remove src).set dst entry with
  | some r2 => .ok r2
  | none => .error enoentError

/-- `fs.promises.rename(src, dst)`: ENOENT on a missing source; renaming
over an existing directory requires a directory source and an empty
destination (else ENOTEMPTY / EISDIR); a directory source cannot replace a
non-directory destination (ENOTDIR); otherwise the entry moves, replacing
any destination file. -/
def renamePrim (root : FsTree) (src dst : List String) : Except ErrnoException FsTree :=
  match root.find src with
  | none => .error enoentError
  | some entry =>
      match root.find dst with
      | some (.directory dcs) =>
          match entry with
          | .directory _ =>
              match dcs with
              | [] => movePrim root src dst entry
              | _ :: _ => .error enotemptyError
          | _ => .error eisdirError
      | some _ =>
          match entry with
          | .directory _ => .error enotdirError
          | _ => movePrim root src dst entry
      | none => movePrim root src dst entry

/-- `path.fsPath` rendering of a segment path (only message-building). -/
def pathToString (p : List String) : String :=
  String.intercalate "/" p

/-- The `isErrnoException` guard of src/node.ts: does the thrown value have
a `code` property?  A `FileSystemError` always does. -/
def isErrnoExceptionCheck : JsError → Bool
  | .errno e => e.code.isSome
  | .fsError _ => true

/-- The `code` property the guard then compares against `ENOENT`. -/
def jsErrorCode : JsError → Option String
  | .errno e => e.code
  | .fsError f => some f.code.value

/-- `ensureTargetNotExists(path)` of src/node.ts: try `access` and on its
success throw file-exists; the catch block re-throws any error carrying a
code other than ENOENT (including the just-thrown file-exists error, whose
code is `EntryExists`) and swallows ENOENT. -/
def ensureTargetNotExists (root : FsTree) (p : List String) : Except JsError Unit :=
  let tryOutcome : Except JsError Unit :=
    match accessPrim root p with
    | .ok _ =>
        .error (.fsError (createFileSystemError ("File exists: " ++ pathToString p)
          FileSystemProviderErrorCode.FileExists))
    | .error e => .error (.errno e)
  match tryOutcome with
  | .ok u => .ok u
  | .error err =>
      if isErrnoExceptionCheck err = true ∧ jsErrorCode err ≠ some "ENOENT" then
        .error err
      else .ok ()

/-- The options record of `rename` / `copy`. -/
structure OverwriteOptions where
  overwrite : Option Bool := none
deriving DecidableEq, Repr

/-- `wrap` applied to the result component of a stateful outcome. -/
def wrapS {α : Type} : Except JsError α × FsTree → Except JsError α × FsTree
  | (r, s) => (wrap r, s)

/-- The local backend's `rename`: when `options?.overwrite === false` first
`ensureTargetNotExists(target)`, then the unconditional underlying rename;
the whole body runs inside `wrap`.  An error leaves the tree as it was at
the point of failure. -/
def renameOp (root : FsTree) (src dst : List String)
    (options : Option OverwriteOptions) : Except JsError Unit × FsTree :=
  wrapS
    (if (options.bind fun o => o.overwrite) = some false then
      match ensureTargetNotExists root dst with
      | .error e => (.error e, root)
      | .ok _ =>
          match renamePrim root src dst with
          | .ok r2 => (.ok (), r2)
          | .error e => (.error (.errno e), root)
    else
      match renamePrim root src dst with
      | .ok r2 => (.ok (), r2)
      | .error e => (.error (.errno e), root))

/-- `copyRecursive(sourcePath, targetPath, overwrite)` of src/node.ts with
a recursion-depth fuel (the source recursion is unbounded): stat the
source; a file is copied with `COPYFILE_EXCL` exactly when overwrite is
off; a directory is (when overwrite is off) first checked absent via
`ensureTargetNotExists`, then created with `mkdir {recursive: true}`, and
its children are copied depth-first in directory order, stopping at the
first failure; anything else throws the Unknown-coded unsupported-type
error. -/
def copyRecursive : Nat → FsTree → List String → List String → Bool →
    Except JsError Unit × FsTree
  | 0, root, _, _, _ => (.error (.errno ⟨"Error", "recursion fuel exhausted", none⟩), root)
  | fuel + 1, root, src, dst, overwrite =>
      match statPrim root src with
      | .error e => (.error (.errno e), root)
      | .ok (.file _) =>
          match copyFilePrim root src dst (!overwrite) with
          | .ok r2 => (.ok (), r2)
          | .error e => (.error (.errno e), root)
      | .ok (.directory _) =>
          match (if overwrite then .ok () else ensureTargetNotExists root dst :
              Except JsError Unit) with
          | .error e => (.error e, root)
          | .ok _ =>
              match root.mkdirp dst with
              | .error e => (.error (.errno e), root)
              | .ok r2 =>
                  match readdirNames r2 src with
                  | .error e => (.error (.errno e), r2)
                  | .ok names =>
                      names.foldl
                        (fun acc n =>
                          match acc with
                          | (.error e, s) => (.error e, s)
                          | (.ok _, s) =>
                              copyRecursive fuel s (src ++ [n]) (dst ++ [n]) overwrite)
                        ((.ok (), r2))
      | .ok .device =>
          (.error (.fsError (createFileSystemError
            ("Unsupported file type: " ++ pathToString src)
            FileSystemProviderErrorCode.Unknown)), root)

/-- The local backend's `copy`: `overwrite = options?.overwrite !== false`,
then `copyRecursive`, inside `wrap`. -/
def copyOp (fuel : Nat) (root : FsTree) (src dst : List String)
    (options : Option OverwriteOptions) : Except JsError Unit × FsTree :=
  wrapS (copyRecursive fuel root src dst
    (decide ((options.bind fun o => o.overwrite) ≠ some false)))

/-- A concrete tree for the rename scenario: files `a` and `b`. -/
def renameDemoTree : FsTree :=
  .directory [("a", .file [104, 105]), ("b", .file [1])]

/-- A concrete tree for the directory-copy scenario: directory `a` holding
file `x.txt` (bytes of "hi") and empty subdirectory `y`. -/
def copyDemoTree : FsTree :=
  .directory [("a", .directory [("x.txt", .file [104, 105]), ("y", .directory [])])]

/-- The state the directory-copy scenario must reach: `b` mirrors `a`. -/
def copyDemoExpected : FsTree :=
  .directory
    [("a", .directory [("x.txt", .file [104, 105]), ("y", .directory [])]),
      ("b", .directory [("x.txt", .file [104, 105]), ("y", .directory [])])]

/-- A concrete tree for the file-copy scenario: files `s` and `t`. -/
def copyFileDemoTree : FsTree :=
  .directory [("s", .file [7]), ("t", .file [8])]

end VscodeFs

namespace VscodeFs

/-- JS `toString` of an `Error` always ends with its `message`, so the
original message survives verbatim as a suffix. -/
theorem errnoToString_preserves_message (e : ErrnoException) :
    ∃ p, e.toString = p ++ e.message := by
  unfold ErrnoException.toString
  by_cases hm : e.message = ""
  · exact ⟨e.name, by simp [hm]⟩
  · by_cases hn : e.name = ""
    · exact ⟨"", by simp [hm, hn]⟩
    · exact ⟨e.name ++ ": ", by simp [hm, hn, String.append_assoc]⟩

/-- C6: the error normalizer maps each recognized errno signal to exactly
one taxonomy code (ENOENT to not-found, EISDIR to is-a-directory, ENOTDIR
to not-a-directory, EEXIST to file-exists, EPERM/EACCES to no-permission),
maps anything unmapped to Unknown while preserving the original message
verbatim (as a suffix of the stored message), and maps the
disallowed-UNC-host signal to Unknown with the message augmented by the
guidance naming the configuration setting that permits the host. -/
theorem toFileSystemError_taxonomy (e : ErrnoException) :
    (e.code = some "ENOENT" →
      (toFileSystemError e).code = FileSystemProviderErrorCode.FileNotFound) ∧
    (e.code = some "EISDIR" →
      (toFileSystemError e).code = FileSystemProviderErrorCode.FileIsADirectory) ∧
    (e.code = some "ENOTDIR" →
      (toFileSystemError e).code = FileSystemProviderErrorCode.FileNotADirectory) ∧
    (e.code = some "EEXIST" →
      (toFileSystemError e).code = FileSystemProviderErrorCode.FileExists) ∧
    (e.code = some "EPERM" ∨ e.code = some "EACCES" →
      (toFileSystemError e).code = FileSystemProviderErrorCode.NoPermissions) ∧
    (e.code = some "ERR_UNC_HOST_NOT_ALLOWED" →
      toFileSystemError e =
        createFileSystemError (e.message ++ uncGuidance)
          FileSystemProviderErrorCode.Unknown) ∧
    (e.code ≠ some "ENOENT" → e.code ≠ some "EISDIR" → e.code ≠ some "ENOTDIR" →
      e.code ≠ some "EEXIST" → e.code ≠ some "EPERM" → e.code ≠ some "EACCES" →
      e.code ≠ some "ERR_UNC_HOST_NOT_ALLOWED" →
      (toFileSystemError e).code = FileSystemProviderErrorCode.Unknown ∧
        ∃ p, (toFileSystemError e).message = p ++ e.message) := by
  refine ⟨?_, ?_, ?_, ?_, ?_, ?_, ?_⟩
  · intro h; simp [toFileSystemError, createFileSystemError, h]
  · intro h; simp [toFileSystemError, createFileSystemError, h]
  · intro h; simp [toFileSystemError, createFileSystemError, h]
  · intro h; simp [toFileSystemError, createFileSystemError, h]
  · rintro (h | h) <;> simp [toFileSystemError, createFileSystemError, h]
  · intro h; simp [toFileSystemError, createFileSystemError, h]
  · intro h1 h2 h3 h4 h5 h6 h7
    have hmsg := errnoToString_preserves_message e
    unfold toFileSystemError
    split
    · exact absurd (by assumption) h1
    · exact absurd (by assumption) h2
    · exact absurd (by assumption) h3
    · exact absurd (by assumption) h4
    · exact absurd (by assumption) h5
    · exact absurd (by assumption) h6
    · exact absurd (by assumption) h7
    · exact ⟨rfl, hmsg⟩

/-- Witness for C6: the theorem applied at a not-found error, at a
disallowed-UNC-host error and at an unmapped error. -/
theorem toFileSystemError_taxonomy_witness :
    (toFileSystemError ⟨"Error", "no such file", some "ENOENT"⟩).code =
        FileSystemProviderErrorCode.FileNotFound ∧
      toFileSystemError ⟨"Error", "host blocked", some "ERR_UNC_HOST_NOT_ALLOWED"⟩ =
        createFileSystemError ("host blocked" ++ uncGuidance)
          FileSystemProviderErrorCode.Unknown ∧
      ((toFileSystemError ⟨"Error", "odd failure", some "EWEIRD"⟩).code =
          FileSystemProviderErrorCode.Unknown ∧
        ∃ p, (toFileSystemError ⟨"Error", "odd failure", some "EWEIRD"⟩).message =
          p ++ "odd failure") := by
  refine ⟨(toFileSystemError_taxonomy ⟨"Error", "no such file", some "ENOENT"⟩).1 rfl,
    (toFileSystemError_taxonomy
        ⟨"Error", "host blocked", some "ERR_UNC_HOST_NOT_ALLOWED"⟩).2.2.2.2.2.1 rfl,
    (toFileSystemError_taxonomy ⟨"Error", "odd failure", some "EWEIRD"⟩).2.2.2.2.2.2
      (by decide) (by decide) (by decide) (by decide) (by decide) (by decide) (by decide)⟩

/-- C1: on the local backend, `exists(p)` is truthy exactly when `stat(p)`
succeeds, and `isFile(p)` is truthy exactly when `stat(p)` succeeds with
type equal to exactly `FileType.File` (value 1, no SymbolicLink bit). -/
theorem exists_isFile_iff_stat (fs : NodeFsOracle) (p : String) :
    ((existsOp fs p).isSome ↔ ∃ st, statOp fs p = .ok st) ∧
    ((∃ st, isFile fs p = .ok (some st)) ↔
      ∃ st, statOp fs p = .ok st ∧ st.type = FileType.File) := by
  cases h : resolveFileType fs p with
  | ok ts =>
      by_cases ht : ts.1 = FileType.File
      · simp [existsOp, statOp, isFile, catchToFalse, wrap, h, ht, Except.map, mkFileStat]
      · simp [existsOp, statOp, isFile, catchToFalse, wrap, h, ht, Except.map, mkFileStat]
  | error e =>
      cases e <;>
        simp [existsOp, statOp, isFile, catchToFalse, wrap, h, Except.map]

/-- C2: `stat` resolves a symbolic link one level — when the target stats
successfully the reported type is the target type OR SymbolicLink (with the
target's metadata), a link to a regular file reporting 1 OR 64 = 65; when
the target stat fails (broken link) the reported type is SymbolicLink alone
(Unknown OR SymbolicLink = 64, with the link's own metadata); and a
non-symlink path reports its exact type, which never carries the
SymbolicLink bit. -/
theorem stat_symlink_resolution (fs : NodeFsOracle) (p : String) (ls : Stats)
    (h : fs.lstat p = .ok ls) :
    (ls.kind = StatsKind.symlink →
      (∀ ts, fs.stat p = .ok ts →
        statOp fs p = .ok (mkFileStat (Nat.lor (toFileType ts) FileType.SymbolicLink) ts)) ∧
      (∀ e, fs.stat p = .error e →
        statOp fs p = .ok (mkFileStat FileType.SymbolicLink ls))) ∧
    (ls.kind ≠ StatsKind.symlink →
      statOp fs p = .ok (mkFileStat (toFileType ls) ls) ∧
      Nat.land (toFileType ls) FileType.SymbolicLink = 0) ∧
    (ls.kind = StatsKind.symlink → ∀ ts, fs.stat p = .ok ts →
      ts.kind = StatsKind.file → statOp fs p = .ok (mkFileStat 65 ts)) := by
  refine ⟨fun hsym => ⟨fun ts hts => ?_, fun e he => ?_⟩, fun hnsym => ⟨?_, ?_⟩,
    fun hsym ts hts htsf => ?_⟩
  · simp [statOp, resolveFileType, wrap, h, hsym, hts, Except.map]
  · simp [statOp, resolveFileType, wrap, h, hsym, he, Except.map,
      FileType.Unknown, FileType.SymbolicLink, Nat.lor]
  · simp [statOp, resolveFileType, wrap, h, hnsym, Except.map]
  · cases hk : ls.kind <;>
      simp_all [toFileType, FileType.File, FileType.Directory, FileType.SymbolicLink,
        FileType.Unknown] <;> decide
  · have : Nat.lor (toFileType ts) FileType.SymbolicLink = 65 := by
      simp only [toFileType, htsf]; decide
    simp [statOp, resolveFileType, wrap, h, hsym, hts, Except.map, this]

/-- Witness for C2: on the concrete oracle, `stat` reports 65 for a link to
a file (with the target's metadata), 64 for a broken link (with the link's
own metadata), and 1 for a plain file. -/
theorem stat_symlink_resolution_witness :
    statOp linkOracle "link" = .ok (mkFileStat 65 ⟨StatsKind.file, 40, 41, 9⟩) ∧
      statOp linkOracle "broken" =
        .ok (mkFileStat FileType.SymbolicLink ⟨StatsKind.symlink, 20, 21, 6⟩) ∧
      statOp linkOracle "plain" =
        .ok (mkFileStat (toFileType ⟨StatsKind.file, 30, 31, 8⟩) ⟨StatsKind.file, 30, 31, 8⟩) :=
  ⟨(stat_symlink_resolution linkOracle "link" ⟨StatsKind.symlink, 10, 11, 4⟩
        rfl).2.2 rfl ⟨StatsKind.file, 40, 41, 9⟩ rfl rfl,
    (stat_symlink_resolution linkOracle "broken" ⟨StatsKind.symlink, 20, 21, 6⟩
        rfl).1 rfl |>.2 ⟨"Error", "no such file or directory", some "ENOENT"⟩ rfl,
    ((stat_symlink_resolution linkOracle "plain" ⟨StatsKind.file, 30, 31, 8⟩
        rfl).2.1 (by decide)).1⟩

/-- The catch-all of a probing method always yields an `ok` outcome. -/
theorem catchToFalse_never_throws (r : Except JsError (Option FileStat)) :
    ∃ v, catchToFalse r = .ok v := by
  cases r <;> exact ⟨_, rfl⟩

/-- C8: the probing operations never throw (they always return an `ok`
outcome), each is truthy exactly when the resolved type equals the
requested type by exact equality — in particular `isSymbolicLink` is truthy
only for type exactly 64, a broken symlink — and every underlying error as
well as every type mismatch yields the definite `false` result. -/
theorem probes_never_throw_exact (fs : NodeFsOracle) (p : String) :
    (∃ v, isFile fs p = .ok v) ∧ (∃ v, isDirectory fs p = .ok v) ∧
    (∃ v, isSymbolicLink fs p = .ok v) ∧
    ((∃ st, isFile fs p = .ok (some st)) ↔
      ∃ s, resolveFileType fs p = .ok (FileType.File, s)) ∧
    ((∃ st, isDirectory fs p = .ok (some st)) ↔
      ∃ s, resolveFileType fs p = .ok (FileType.Directory, s)) ∧
    ((∃ st, isSymbolicLink fs p = .ok (some st)) ↔
      ∃ s, resolveFileType fs p = .ok (FileType.SymbolicLink, s)) ∧
    (∀ e, resolveFileType fs p = .error e →
      isFile fs p = .ok none ∧ isDirectory fs p = .ok none ∧
        isSymbolicLink fs p = .ok none) := by
  refine ⟨catchToFalse_never_throws _, catchToFalse_never_throws _,
    catchToFalse_never_throws _, ?_⟩
  cases h : resolveFileType fs p with
  | ok ts =>
      refine ⟨?_, ?_, ?_, by simp [h]⟩ <;>
        rcases ts with ⟨t, s⟩ <;>
        by_cases ht1 : t = FileType.File <;>
        by_cases ht2 : t = FileType.Directory <;>
        by_cases ht3 : t = FileType.SymbolicLink <;>
        simp_all [isFile, isDirectory, isSymbolicLink, catchToFalse, Except.map,
          mkFileStat, Prod.ext_iff, FileType.File, FileType.Directory,
          FileType.SymbolicLink]
  | error e =>
      simp [isFile, isDirectory, isSymbolicLink, catchToFalse, Except.map, h]

/-- Witness for C8: the probes applied to the missing path of the concrete
oracle all report false without throwing. -/
theorem probes_never_throw_exact_witness :
    isFile linkOracle "missing" = .ok none ∧
      isDirectory linkOracle "missing" = .ok none ∧
      isSymbolicLink linkOracle "missing" = .ok none :=
  (probes_never_throw_exact linkOracle "missing").2.2.2.2.2.2
    (JsError.errno ⟨"Error", "no such file or directory", some "ENOENT"⟩) rfl

/-- C3: on both backends, create-event delivery is gated on
`ignoreChangeEvents`: the local backend wires the `add` handler (and
delivers to create listeners) exactly when `ignoreChangeEvents` is not
`true`; the host backend passes `ignoreChangeEvents` in the native
watcher's create-ignore position; neither backend's wiring depends on
`ignoreCreateEvents`, which only feeds the watcher's read-only
`ignoreCreateEvents` property. -/
theorem createEvents_gated_on_ignoreChangeEvents (opts : WatcherOptions)
    (cls chls dls : List Nat) :
    (notifiedListeners ⟨cls, chls, dls, nodeWatcherWiring (some opts)⟩ RawEvent.add =
      if opts.ignoreChangeEvents ≠ some true then cls else []) ∧
    (∀ b, nodeWatcherWiring (some { opts with ignoreCreateEvents := b }) =
      nodeWatcherWiring (some opts)) ∧
    (∀ b, vscodeCreateWatcherArgs (some { opts with ignoreCreateEvents := b }) =
      vscodeCreateWatcherArgs (some opts)) ∧
    (vscodeCreateWatcherArgs (some opts)).ignoreCreateEvents =
      opts.ignoreChangeEvents ∧
    ignoreCreateEventsProperty (some opts) = opts.ignoreCreateEvents.getD false := by
  refine ⟨?_, fun b => rfl, fun b => rfl, rfl, rfl⟩
  by_cases h : opts.ignoreChangeEvents = some true <;>
    simp [notifiedListeners, nodeWatcherWiring, h]

/-- C9: each listener registration's disposable removes exactly that
listener and no other: disposal never removes a different listener from the
set, removes the disposed one, and after registering two distinct change
listeners on a fresh watcher and disposing the first, a change event is
delivered to exactly the remaining listener. -/
theorem listener_disposal_exact (w : NodeWatcherState) (x y l1 l2 : Nat)
    (hyx : y ≠ x) (hne : l1 ≠ l2) :
    (y ∈ (disposeChange w x).changeListeners ↔ y ∈ w.changeListeners) ∧
    x ∉ (disposeChange w x).changeListeners ∧
    notifiedListeners
        (disposeChange (onDidChange (onDidChange ⟨[], [], [], nodeWatcherWiring none⟩ l1) l2) l1)
        RawEvent.change = [l2] := by
  refine ⟨?_, ?_, ?_⟩
  · simp [disposeChange, setDelete, List.mem_filter, hyx]
  · simp [disposeChange, setDelete, List.mem_filter]
  · simp [onDidChange, disposeChange, setAdd, setDelete, notifiedListeners,
      nodeWatcherWiring, Ne.symm hne, hne]

/-- Witness for C9 at listener tokens 0 and 1 on a concrete watcher. -/
theorem listener_disposal_exact_witness :
    ((3 : Nat) ∈ (disposeChange ⟨[], [3, 5], [], nodeWatcherWiring none⟩ 5).changeListeners ↔
      (3 : Nat) ∈ ([3, 5] : List Nat)) ∧
      (5 : Nat) ∉ (disposeChange ⟨[], [3, 5], [], nodeWatcherWiring none⟩ 5).changeListeners ∧
      notifiedListeners
          (disposeChange (onDidChange (onDidChange ⟨[], [], [], nodeWatcherWiring none⟩ 0) 1) 0)
          RawEvent.change = [1] :=
  listener_disposal_exact ⟨[], [3, 5], [], nodeWatcherWiring none⟩ 5 3 0 1
    (by decide) (by decide)

/-- C10: the host backend's `delete` forwards only the uri to the native
provider — the caller's options (recursive, useTrash) are discarded — so
any two option arguments produce the same call, identical to passing no
options at all. -/
theorem vscodeDelete_discards_options {σ : Type} (native : String → Option DeleteOptions → σ)
    (uri : String) (o1 o2 : Option DeleteOptions) :
    vscodeDelete native uri o1 = native uri none ∧
    vscodeDelete native uri o1 = vscodeDelete native uri o2 ∧
    vscodeDelete native uri (some { recursive := some true }) =
      vscodeDelete native uri none ∧
    vscodeDelete native uri (some { useTrash := some true }) =
      vscodeDelete native uri none :=
  ⟨rfl, rfl, rfl, rfl⟩

/-- Updating a children list under a name makes that name resolve to the
new entry. -/
theorem findChild_setChild_self (cs : List (String × FsTree)) (n : String) (t : FsTree) :
    findChild (setChild cs n t) n = some t := by
  induction cs with
  | nil => simp [setChild, findChild]
  | cons mc rest ih =>
      obtain ⟨m, c⟩ := mc
      by_cases h : m = n
      · simp [setChild, findChild, h]
      · simp [setChild, findChild, h, ih]

/-- `find` at the empty path is the tree itself. -/
theorem find_nil (t : FsTree) : t.find [] = some t := by
  cases t <;> rfl

/-- `set` at the empty path replaces the whole tree. -/
theorem set_nil (t e : FsTree) : t.set [] e = some e := by
  cases t <;> rfl

/-- A path that resolves can be written to: its proper ancestors all exist
as directories, so `set` succeeds. -/
theorem set_of_find_some (p : List String) :
    ∀ root e e2 : FsTree, root.find p = some e → ∃ r2, root.set p e2 = some r2 := by
  induction p with
  | nil => exact fun root e e2 _ => ⟨e2, set_nil root e2⟩
  | cons n rest ih =>
      intro root e e2 h
      cases root with
      | file c => simp [FsTree.find] at h
      | device => simp [FsTree.find] at h
      | directory cs =>
          cases hc : findChild cs n with
          | none => simp [FsTree.find, hc] at h
          | some c =>
              simp only [FsTree.find, hc] at h
              cases rest with
              | nil => exact ⟨.directory (setChild cs n e2), rfl⟩
              | cons m rest2 =>
                  obtain ⟨r2, hr2⟩ := ih c e e2 h
                  exact ⟨.directory (setChild cs n r2), by simp [FsTree.set, hc, hr2]⟩

/-- After a successful `set`, `find` at the written path yields the written
entry. -/
theorem find_set_self (p : List String) :
    ∀ root e r2 : FsTree, root.set p e = some r2 → r2.find p = some e := by
  induction p with
  | nil =>
      intro root e r2 h
      rw [set_nil root e, Option.some.injEq] at h
      subst h; exact find_nil e
  | cons n rest ih =>
      intro root e r2 h
      cases root with
      | file c => simp [FsTree.set] at h
      | device => simp [FsTree.set] at h
      | directory cs =>
          cases rest with
          | nil =>
              simp only [FsTree.set, Option.some.injEq] at h
              subst h
              simp [FsTree.find, findChild_setChild_self, find_nil]
          | cons m rest2 =>
              cases hc : findChild cs n with
              | none => simp [FsTree.set, hc] at h
              | some c =>
                  simp only [FsTree.set, hc, Option.map_eq_some'] at h
                  obtain ⟨c2, hc2, hr2⟩ := h
                  subst hr2
                  simp [FsTree.find, findChild_setChild_self, ih c e c2 hc2]

/-- When the probed path exists, `ensureTargetNotExists` throws the
file-exists normalized error (its own thrown error survives the catch
block, whose errno guard sees the `EntryExists` code). -/
theorem ensureTargetNotExists_of_find_some (root : FsTree) (p : List String)
    (e : FsTree) (h : root.find p = some e) :
    ensureTargetNotExists root p =
      .error (.fsError (createFileSystemError ("File exists: " ++ pathToString p)
        FileSystemProviderErrorCode.FileExists)) := by
  have hcond : isErrnoExceptionCheck (JsError.fsError
        (createFileSystemError ("File exists: " ++ pathToString p)
          FileSystemProviderErrorCode.FileExists)) = true ∧
      jsErrorCode (JsError.fsError
        (createFileSystemError ("File exists: " ++ pathToString p)
          FileSystemProviderErrorCode.FileExists)) ≠ some "ENOENT" := by
    refine ⟨rfl, ?_⟩
    simp [jsErrorCode, createFileSystemError, FileSystemProviderErrorCode.value]
  simp only [ensureTargetNotExists, accessPrim, h, if_pos hcond]

/-- When the probed path is absent, `ensureTargetNotExists` swallows the
ENOENT failure of `access` and succeeds. -/
theorem ensureTargetNotExists_of_find_none (root : FsTree) (p : List String)
    (h : root.find p = none) :
    ensureTargetNotExists root p = .ok () := by
  have hcond : ¬(isErrnoExceptionCheck (JsError.errno enoentError) = true ∧
      jsErrorCode (JsError.errno enoentError) ≠ some "ENOENT") := by
    simp [isErrnoExceptionCheck, jsErrorCode, enoentError]
  simp only [ensureTargetNotExists, accessPrim, h, if_neg hcond]

/-- C4: when the target exists and overwrite is explicitly false, `rename`
fails with the file-exists error and returns the tree unchanged (so both
source and target keep their entries); with overwrite unset the call
behaves exactly as with overwrite true, performing the unconditional
underlying rename with no target-absence check — in particular whenever the
underlying rename succeeds (even onto an existing target) the operation
succeeds. -/
theorem rename_overwrite_semantics (root : FsTree) (src dst : List String) :
    (∀ e, root.find dst = some e →
      renameOp root src dst (some ⟨some false⟩) =
        (.error (.fsError (createFileSystemError ("File exists: " ++ pathToString dst)
          FileSystemProviderErrorCode.FileExists)), root)) ∧
    renameOp root src dst none = renameOp root src dst (some ⟨some true⟩) ∧
    (∀ r2, renamePrim root src dst = .ok r2 →
      renameOp root src dst none = (.ok (), r2) ∧
      renameOp root src dst (some ⟨some true⟩) = (.ok (), r2)) := by
  refine ⟨fun e he => ?_, rfl, fun r2 h => ?_⟩
  · simp [renameOp, ensureTargetNotExists_of_find_some root dst e he, wrapS, wrap]
  · constructor <;> simp [renameOp, wrapS, wrap, h]

/-- Witness for C4 on the concrete tree: renaming `a` onto the existing
`b` fails file-exists with the tree untouched when overwrite is false, and
replaces `b` when overwrite is unset. -/
theorem rename_overwrite_semantics_witness :
    renameOp renameDemoTree ["a"] ["b"] (some ⟨some false⟩) =
      (.error (.fsError (createFileSystemError ("File exists: " ++ pathToString ["b"])
        FileSystemProviderErrorCode.FileExists)), renameDemoTree) ∧
    renameOp renameDemoTree ["a"] ["b"] none =
      (.ok (), .directory [("b", .file [104, 105])]) :=
  ⟨(rename_overwrite_semantics renameDemoTree ["a"] ["b"]).1 (.file [1]) rfl,
    ((rename_overwrite_semantics renameDemoTree ["a"] ["b"]).2.2
      (.directory [("b", .file [104, 105])]) rfl).1⟩

/-- C5: `copy` defaults overwrite to true (no options behaves as
`{overwrite: true}`); a file source is copied with the exclusive-creation
mode exactly when overwrite is explicitly disabled — with overwrite on it
replaces an existing target file with the source bytes, with overwrite off
an existing target makes it fail EEXIST (normalized to file-exists) leaving
the tree unchanged; a directory source with overwrite off fails file-exists
when the target exists, leaving the tree (hence the target's contents)
unmodified; a source that is neither file nor directory fails with the
Unknown code; and on the concrete two-entry directory the recursion mirrors
the source depth-first into the target. -/
theorem copy_semantics :
    (∀ fuel root src dst,
      copyOp fuel root src dst none = copyOp fuel root src dst (some ⟨some true⟩)) ∧
    (∀ (n : Nat) (root : FsTree) src dst c c2,
      root.find src = some (.file c) → root.find dst = some (.file c2) →
      ∃ r2, FsTree.set root dst (.file c) = some r2 ∧
        copyOp (n + 1) root src dst none = (.ok (), r2) ∧
        r2.find dst = some (.file c)) ∧
    (∀ (n : Nat) (root : FsTree) src dst c c2,
      root.find src = some (.file c) → root.find dst = some (.file c2) →
      copyOp (n + 1) root src dst (some ⟨some false⟩) =
        (.error (.fsError (toFileSystemError eexistError)), root)) ∧
    (∀ (n : Nat) (root : FsTree) src dst cs e,
      root.find src = some (.directory cs) → root.find dst = some e →
      copyOp (n + 1) root src dst (some ⟨some false⟩) =
        (.error (.fsError (createFileSystemError ("File exists: " ++ pathToString dst)
          FileSystemProviderErrorCode.FileExists)), root)) ∧
    (∀ (n : Nat) (root : FsTree) src dst opts,
      root.find src = some .device →
      copyOp (n + 1) root src dst opts =
        (.error (.fsError (createFileSystemError
          ("Unsupported file type: " ++ pathToString src)
          FileSystemProviderErrorCode.Unknown)), root)) ∧
    copyOp 3 copyDemoTree ["a"] ["b"] none = (.ok (), copyDemoExpected) := by
  refine ⟨fun fuel root src dst => rfl, ?_, ?_, ?_, ?_, ?_⟩
  · intro n root src dst c c2 hs hd
    obtain ⟨r2, hset⟩ := set_of_find_some dst root (.file c2) (.file c) hd
    refine ⟨r2, hset, ?_, find_set_self dst root (.file c) r2 hset⟩
    simp [copyOp, copyRecursive, statPrim, copyFilePrim, hs, hd, hset, wrapS, wrap]
  · intro n root src dst c c2 hs hd
    simp [copyOp, copyRecursive, statPrim, copyFilePrim, hs, hd, wrapS, wrap]
  · intro n root src dst cs e hs hd
    simp [copyOp, copyRecursive, statPrim, hs, wrapS, wrap,
      ensureTargetNotExists_of_find_some root dst e hd]
  · intro n root src dst opts hs
    simp [copyOp, copyRecursive, statPrim, hs, wrapS, wrap]
  · rfl

/-- Witness for C5 on the concrete trees: copying file `s` over existing
file `t` succeeds by default and fails EEXIST with overwrite false. -/
theorem copy_semantics_witness :
    (∃ r2, FsTree.set copyFileDemoTree ["t"] (.file [7]) = some r2 ∧
      copyOp 1 copyFileDemoTree ["s"] ["t"] none = (.ok (), r2) ∧
      r2.find ["t"] = some (.file [7])) ∧
    copyOp 1 copyFileDemoTree ["s"] ["t"] (some ⟨some false⟩) =
      (.error (.fsError (toFileSystemError eexistError)), copyFileDemoTree) :=
  ⟨copy_semantics.2.1 0 copyFileDemoTree ["s"] ["t"] [7] [8] rfl rfl,
    copy_semantics.2.2.1 0 copyFileDemoTree ["s"] ["t"] [7] [8] rfl rfl⟩

/-- C7: every error escaping `wrap` is a normalized `FileSystemError`
(recognized by `isFileSystemError`), and an error that is already
normalized is re-thrown by `wrap` unchanged, so errors are never
double-wrapped: feeding any `wrap` error outcome back through `wrap` is the
identity. -/
theorem wrap_normalizes {α : Type} (r : Except JsError α) (e : JsError)
    (h : wrap r = .error e) :
    isFileSystemError e = true ∧ wrap (Except.error e : Except JsError α) = .error e := by
  cases r with
  | ok a => simp [wrap] at h
  | error e0 =>
      cases e0 with
      | fsError f =>
          simp only [wrap] at h
          cases h
          exact ⟨rfl, rfl⟩
      | errno ex =>
          simp only [wrap] at h
          cases h
          exact ⟨rfl, rfl⟩

/-- Witness for C7 at a concrete foreign errno error. -/
theorem wrap_normalizes_witness :
    isFileSystemError (JsError.fsError (toFileSystemError ⟨"Error", "boom", none⟩)) = true ∧
      wrap (Except.error (JsError.fsError (toFileSystemError ⟨"Error", "boom", none⟩)) :
        Except JsError Nat) =
        .error (JsError.fsError (toFileSystemError ⟨"Error", "boom", none⟩)) :=
  wrap_normalizes (Except.error (JsError.errno ⟨"Error", "boom", none⟩))
    (JsError.fsError (toFileSystemError ⟨"Error", "boom", none⟩)) rfl

end VscodeFs
